import Mathlib

/-!
Verification development for the Windhawk engine core: the session-scoped
private kernel-object namespace (`session_private_namespace.cpp`), the
update checker (the `UpdateChecker` translation unit), and the
process-creation gate (`new_process_injector.h`).

Machine integers are modelled as `Nat` with explicit bounds (`DWORD` values
are below `2 ^ 32`); `HRESULT` values are modelled as their unsigned 32-bit
bit patterns, so `SUCCEEDED hr` is `hr < 2 ^ 31`. Fallible OS calls are
modelled as `Except`-returning functions over an explicit fault record and
an explicit OS namespace state.
-/

namespace Windhawk

/-! ## Decimal formatting (the `%u` conversion used by `swprintf_s`) -/

/-- Digits of `n` written most-significant first, as produced by the `%u`
printf conversion for a nonzero argument; `fuel` bounds the recursion and is
always called with enough fuel for the argument. -/
def decDigitsAux : Nat → Nat → List Char
  | 0, _ => []
  | _ + 1, 0 => []
  | fuel + 1, n => decDigitsAux fuel (n / 10) ++ [Char.ofNat (48 + n % 10)]

/-- The `%u` printf conversion: unsigned decimal, no padding, with `"0"` for
zero. -/
def formatU (n : Nat) : String :=
  if n = 0 then "0" else String.mk (decDigitsAux 32 n)

/-! ## SessionPrivateNamespace

The C++ source formats `L"WindhawkSession%u"` into a buffer of
`kPrivateNamespaceMaxLen + 1` wide characters, with the `static_assert`
that `kPrivateNamespaceMaxLen + 1 == sizeof("WindhawkSession1234567890")`,
i.e. `kPrivateNamespaceMaxLen = 25`. -/

def kPrivateNamespaceMaxLen : Nat := 25

/-- The two SIDs the source attaches to the boundary descriptor:
`SECURITY_WORLD_SID_AUTHORITY`/`SECURITY_WORLD_RID` ("everyone"), and
`SECURITY_MANDATORY_LABEL_AUTHORITY`/`SECURITY_MANDATORY_MEDIUM_RID`. -/
inductive SidKind where
  | world
  | mediumMandatoryLevel
  deriving Repr, DecidableEq

/-- A boundary descriptor as assembled by `CreateBoundaryDescriptor` plus
`AddSIDToBoundaryDescriptor` / `AddIntegrityLabelToBoundaryDescriptor`. -/
structure BoundaryDescriptor where
  name : String
  sids : List SidKind
  integrityLabels : List SidKind
  deriving Repr, DecidableEq

/-- Which OS primitive calls fail in a given run; all-false is the happy
path. Each flag models the corresponding Win32 call returning
null/FALSE, which the source turns into a thrown error via the
`THROW_...` macros. -/
structure OsFaults where
  createBoundaryDescriptorFails : Bool := false
  allocateWorldSidFails : Bool := false
  addSidToBoundaryFails : Bool := false
  allocateMediumSidFails : Bool := false
  addIntegrityLabelFails : Bool := false
  getFullAccessSecurityDescriptorFails : Bool := false
  createPrivateNamespaceFails : Bool := false
  openPrivateNamespaceFails : Bool := false
  deriving Repr, DecidableEq

def OsFaults.none : OsFaults := {}

/-- A thrown error: either a failed Win32 call (named), or the two
name-dependent failure modes of the namespace primitives. -/
inductive OsError where
  | win32 (call : String)
  | alreadyExists
  | notFound
  deriving Repr, DecidableEq

/-- `BuildBoundaryDescriptor` (anonymous namespace of
`session_private_namespace.cpp`): creates a boundary descriptor for
`descriptorName`, adds the world SID, then adds the medium mandatory
integrity label; any failed call throws. -/
def BuildBoundaryDescriptor (f : OsFaults) (descriptorName : String) :
    Except OsError BoundaryDescriptor :=
  if f.createBoundaryDescriptorFails then
    .error (.win32 "CreateBoundaryDescriptor")
  else if f.allocateWorldSidFails then
    .error (.win32 "AllocateAndInitializeSid")
  else if f.addSidToBoundaryFails then
    .error (.win32 "AddSIDToBoundaryDescriptor")
  else if f.allocateMediumSidFails then
    .error (.win32 "AllocateAndInitializeSid")
  else if f.addIntegrityLabelFails then
    .error (.win32 "AddIntegrityLabelToBoundaryDescriptor")
  else
    .ok { name := descriptorName,
          sids := [SidKind.world],
          integrityLabels := [SidKind.mediumMandatoryLevel] }

inductive SecurityDescriptorKind where
  | fullAccess
  deriving Repr, DecidableEq

/-- Modelled from the spec: `Functions::GetFullAccessSecurityDescriptor`
lives in `functions.cpp`, which is not part of the excerpt; per the spec it
"builds a security descriptor granting full access to all principals". -/
def GetFullAccessSecurityDescriptor (f : OsFaults) :
    Except OsError SecurityDescriptorKind :=
  if f.getFullAccessSecurityDescriptorFails then
    .error (.win32 "GetFullAccessSecurityDescriptor")
  else .ok SecurityDescriptorKind.fullAccess

/-- `SECURITY_ATTRIBUTES` as filled in by `Create`. -/
structure SecurityAttributes where
  securityDescriptor : SecurityDescriptorKind
  bInheritHandle : Bool
  deriving Repr, DecidableEq

/-- A private namespace object as registered with the OS. -/
structure PrivateNamespace where
  name : String
  boundary : BoundaryDescriptor
  security : SecurityAttributes
  deriving Repr, DecidableEq

/-- The OS-global table of existing private namespaces. -/
structure OsState where
  namespaces : List PrivateNamespace := []
  deriving Repr, DecidableEq

/-- Modelled from the spec: `CreatePrivateNamespace` is a Windows
primitive (outside the repository). It atomically registers the named
namespace inside the boundary, failing without a state change when the
call fails or a namespace with that name already exists. -/
def CreatePrivateNamespaceOs (f : OsFaults) (st : OsState)
    (secAttr : SecurityAttributes) (bd : BoundaryDescriptor)
    (nsName : String) : OsState × Except OsError PrivateNamespace :=
  if f.createPrivateNamespaceFails then
    (st, .error (.win32 "CreatePrivateNamespace"))
  else if st.namespaces.any (fun ns => ns.name == nsName) then
    (st, .error .alreadyExists)
  else
    let ns : PrivateNamespace :=
      { name := nsName, boundary := bd, security := secAttr }
    ({ namespaces := ns :: st.namespaces }, .ok ns)

/-- Modelled from the spec: `OpenPrivateNamespace` is a Windows primitive
(outside the repository). It opens — and never creates — an existing
namespace with the given name inside the given boundary, leaving the OS
state untouched. -/
def OpenPrivateNamespaceOs (f : OsFaults) (st : OsState)
    (bd : BoundaryDescriptor) (nsName : String) :
    OsState × Except OsError PrivateNamespace :=
  if f.openPrivateNamespaceFails then
    (st, .error (.win32 "OpenPrivateNamespace"))
  else
    match st.namespaces.find?
        (fun ns => ns.name == nsName && decide (ns.boundary = bd)) with
    | some ns => (st, .ok ns)
    | Option.none => (st, .error .notFound)

namespace SessionPrivateNamespace

/-- `SessionPrivateNamespace::MakeName`: formats
`L"WindhawkSession%u"` with the session manager process id. -/
def MakeName (dwSessionManagerProcessId : Nat) : String :=
  "WindhawkSession" ++ formatU dwSessionManagerProcessId

/-- `SessionPrivateNamespace::Create`: builds the name, builds a boundary
descriptor from that same string, obtains a full-access security
descriptor, and creates the private namespace under that same string;
every failed OS call throws and the OS state is returned unchanged on
every error path. -/
def Create (f : OsFaults) (st : OsState) (dwSessionManagerProcessId : Nat) :
    OsState × Except OsError PrivateNamespace :=
  match BuildBoundaryDescriptor f (MakeName dwSessionManagerProcessId) with
  | .error e => (st, .error e)
  | .ok boundaryDesc =>
    match GetFullAccessSecurityDescriptor f with
    | .error e => (st, .error e)
    | .ok secDesc =>
      CreatePrivateNamespaceOs f st
        { securityDescriptor := secDesc, bInheritHandle := false }
        boundaryDesc (MakeName dwSessionManagerProcessId)

/-- `SessionPrivateNamespace::Open`: rebuilds the same boundary descriptor
from the same name and opens the existing private namespace; a failed OS
call throws. -/
def Open (f : OsFaults) (st : OsState) (dwSessionManagerProcessId : Nat) :
    OsState × Except OsError PrivateNamespace :=
  match BuildBoundaryDescriptor f (MakeName dwSessionManagerProcessId) with
  | .error e => (st, .error e)
  | .ok boundaryDesc =>
    OpenPrivateNamespaceOs f st boundaryDesc
      (MakeName dwSessionManagerProcessId)

end SessionPrivateNamespace

/-! ## UpdateChecker (update_checker translation unit)

The HTTP transport (`CWinHTTPSimple`) is external to the excerpt; an
exchange's observable outcome is its transport `HRESULT`, its last HTTP
status code, and its response body. -/

/-- `SUCCEEDED(hr)` for an `HRESULT` given as its unsigned 32-bit bit
pattern: the severity bit (bit 31) is clear. -/
def SUCCEEDED (hr : Nat) : Bool :=
  hr < 2 ^ 31

/-- `HRESULT_FROM_WIN32(x)` for a nonnegative Win32 error code `x`:
zero maps to `S_OK`, anything else to severity-error, facility 7. -/
def HRESULT_FROM_WIN32 (x : Nat) : Nat :=
  if x = 0 then 0 else 0x80070000 + x % 0x10000

def ERROR_WINHTTP_INVALID_HEADER : Nat := 12150

def E_FAIL : Nat := 0x80004005

/-- Observable outcome of one `CWinHTTPSimple` exchange:
`GetRequestResult()`, `GetLastStatusCode()` and `GetResponse()`. -/
structure HttpExchange where
  requestResult : Nat
  lastStatusCode : Nat
  response : String
  deriving Repr, DecidableEq

def kUpdateCheckerUrl : String := "https://update.windhawk.net/versions.json"

/-- Request options handed to `CWinHTTPSimple`. The defaults model an
exchange whose verb was not overridden (a GET with no optional data). -/
structure CWinHTTPSimpleOptions where
  sURL : String := ""
  sUserAgent : String := ""
  sVerb : String := "GET"
  lpOptional : Option String := Option.none
  deriving Repr, DecidableEq

namespace UpdateChecker

def kFlagPortable : Nat := 1

/-- `GetUpdateCheckerOptions(flags, postData, postDataSize)`. The engine
version string (`VER_FILE_VERSION_WSTR`) and the cached native machine code
(`GetNativeMachine()`) are build/host constants and are passed explicitly.
`postData` is `none` for a null post-data pointer. -/
def GetUpdateCheckerOptions (verFileVersion : String) (nativeMachine : Nat)
    (flags : Nat) (postData : Option String) : CWinHTTPSimpleOptions :=
  let ua0 := "Windhawk/" ++ verFileVersion ++ " ("
  let ua1 := ua0 ++ toString nativeMachine
  let ua2 := if Nat.land flags kFlagPortable ≠ 0 then ua1 ++ "; portable"
    else ua1
  let base : CWinHTTPSimpleOptions :=
    { sURL := kUpdateCheckerUrl, sUserAgent := ua2 ++ ")" }
  match postData with
  | some d =>
    if d.length > 0 then
      { base with sVerb := "POST", lpOptional := some d }
    else base
  | Option.none => base

/-- A request as configured before sending: the options plus the headers
added with `AddHeaders`. -/
structure HttpRequest where
  options : CWinHTTPSimpleOptions
  headers : List String
  deriving Repr, DecidableEq

/-- The primary request built by the `UpdateChecker` constructor:
options from `GetUpdateCheckerOptions(m_flags, m_postedData.data(),
m_postedData.length())`, and a `Content-Type: application/json` header
added exactly when `m_postedData` is nonempty. -/
def primaryRequest (verFileVersion : String) (nativeMachine : Nat)
    (flags : Nat) (postedData : String) : HttpRequest :=
  { options := GetUpdateCheckerOptions verFileVersion nativeMachine flags
      (some postedData),
    headers := if postedData.length = 0 then []
      else ["Content-Type: application/json"] }

/-- `UpdateChecker::ShouldRetryWithAGetRequest()`: the primary result is
`HRESULT_FROM_WIN32(ERROR_WINHTTP_INVALID_HEADER)` and the status is 405. -/
def ShouldRetryWithAGetRequest (primary : HttpExchange) : Bool :=
  primary.requestResult == HRESULT_FROM_WIN32 ERROR_WINHTTP_INVALID_HEADER
    && primary.lastStatusCode == 405

/-- The synchronous constructor path after `m_httpSimple.SendRequest(nullptr)`
returns: the options of the fallback GET request it builds and sends, or
`none` when no fallback is issued. The fallback is built with
`GetUpdateCheckerOptions(m_flags, nullptr, 0)`. -/
def syncFallbackRequest (verFileVersion : String) (nativeMachine : Nat)
    (flags : Nat) (primary : HttpExchange) : Option CWinHTTPSimpleOptions :=
  if ShouldRetryWithAGetRequest primary then
    some (GetUpdateCheckerOptions verFileVersion nativeMachine flags
      Option.none)
  else Option.none

/-- `UpdateChecker::Result`. `updateStatus` models the
`UserProfile::UpdateStatus` enum abstractly as a `Nat` (zero-initialized by
`Result result = {}`). -/
structure Result where
  hrError : Nat := 0
  httpStatusCode : Nat := 0
  updateStatus : Nat := 0
  deriving Repr, DecidableEq

/-- `UpdateChecker::HandleResponse()`. `fallback` is the state of
`m_httpSimpleGetRequest` (`none` when the pointer is null); the external
collaborator `UserProfile::UpdateContentWithOnlineData` is passed as a
function returning `Except` (an `error` models a thrown `std::exception`,
which the source catches, logs, and converts to `E_FAIL`). -/
def HandleResponse (primary : HttpExchange) (fallback : Option HttpExchange)
    (updateContentWithOnlineData : String → Except String Nat) : Result :=
  let httpSimple := fallback.getD primary
  let result : Result :=
    { hrError := httpSimple.requestResult,
      httpStatusCode := httpSimple.lastStatusCode }
  if SUCCEEDED result.hrError then
    match updateContentWithOnlineData httpSimple.response with
    | .ok st => { result with updateStatus := st }
    | .error _ => { result with hrError := E_FAIL }
  else result

/-- Mutable `UpdateChecker` state touched by `Abort` and `OnRequestDone`:
the `m_aborted` flag, whether `m_httpSimple.Abort()` has been called, the
`m_httpSimpleGetRequest` pointer (`none` when null; `some b` records the
fallback exchange with its own aborted flag `b`), and the log sink. -/
structure UCState where
  aborted : Bool := false
  primaryAborted : Bool := false
  fallback : Option Bool := Option.none
  logs : List String := []
  deriving Repr, DecidableEq

/-- Outcome of constructing and sending the fallback request inside
`OnRequestDone`: either both succeed, or a `std::exception` escapes
(`make_unique`, `SendRequest`, or the `THROW_IF_FAILED`). -/
inductive SendOutcome where
  | ok
  | throws
  deriving Repr, DecidableEq

/-- Result of one run of `OnRequestDone`: the new state, how many times
`m_onUpdateCheckDone` was invoked directly, and how many completion
callbacks were registered with the fallback's `SendRequest` (each of which
fires exactly once when the fallback exchange completes). -/
structure OnDoneResult where
  state : UCState
  immediateCallbacks : Nat
  deferredCallbacks : Nat
  deriving Repr, DecidableEq

/-- `UpdateChecker::OnRequestDone()`, the completion handler of the primary
exchange in asynchronous mode. The section between taking
`m_httpSimpleGetRequestMutex` and releasing it is atomic with respect to
`Abort`; `sendOutcome` tells whether building and sending the fallback
request throws. -/
def OnRequestDone (primary : HttpExchange) (s : UCState)
    (sendOutcome : SendOutcome) : OnDoneResult :=
  if ShouldRetryWithAGetRequest primary && !s.aborted then
    -- mutex-guarded critical section: re-check m_aborted
    if !s.aborted then
      match sendOutcome with
      | .ok =>
        { state := { s with fallback := some false },
          immediateCallbacks := 0, deferredCallbacks := 1 }
      | .throws =>
        { state := { s with
            fallback := Option.none,
            logs := s.logs ++ ["Get request failed"] },
          immediateCallbacks := 1, deferredCallbacks := 0 }
    else
      { state := s, immediateCallbacks := 1, deferredCallbacks := 0 }
  else
    { state := s, immediateCallbacks := 1, deferredCallbacks := 0 }

/-- `UpdateChecker::Abort()`: set `m_aborted`, abort the primary exchange,
then under `m_httpSimpleGetRequestMutex` abort the fallback exchange if one
exists. -/
def Abort (s : UCState) : UCState :=
  { s with
    aborted := true,
    primaryAborted := true,
    fallback := s.fallback.map (fun _ => true) }

/-- Atomic steps that may interleave with each other across threads: the
three steps of an `Abort` call, and the mutex-guarded completion handler of
the primary exchange (the handler runs on the transport's thread; its
critical section is one atomic step thanks to
`m_httpSimpleGetRequestMutex`). -/
inductive UCStep where
  | setAbortFlag
  | abortPrimary
  | abortFallbackCritical
  | completionHandler (primary : HttpExchange) (sendOutcome : SendOutcome)
  deriving Repr, DecidableEq

def stepFn (s : UCState) : UCStep → UCState
  | .setAbortFlag => { s with aborted := true }
  | .abortPrimary => { s with primaryAborted := true }
  | .abortFallbackCritical =>
    { s with fallback := s.fallback.map (fun _ => true) }
  | .completionHandler primary sendOutcome =>
    (OnRequestDone primary s sendOutcome).state

def runTrace (s : UCState) (events : List UCStep) : UCState :=
  events.foldl stepFn s

end UpdateChecker

/-! ## NewProcessInjector (the process-creation gate)

Only the class declaration (`new_process_injector.h`) is part of the
excerpt; the bodies of `CreateProcessInternalW_Hook` and its helpers are
modelled from the spec (§4.1). -/

namespace NewProcessInjector

/-- The pattern-matching policy consumed by the gate
(`ShouldSkipNewProcess` / `ShouldAttachExemptThread`), supplied at
construction and immutable afterwards. -/
structure GatePolicy where
  ShouldSkipNewProcess : String → Bool
  ShouldAttachExemptThread : String → Bool

/-- The result of the real (saved) `CreateProcessInternalW`
implementation: its BOOL return value and, on failure, the last error. -/
structure CreateProcessResult where
  success : Bool
  errorCode : Nat
  deriving Repr, DecidableEq

/-- Externally observable actions of one hook invocation. -/
inductive GateEvent where
  | policyEvaluated (imagePath : String) (skip : Bool)
      (threadAttachExempt : Bool)
  | injectionInvoked (imagePath : String) (threadAttachExempt : Bool)
  | logged (message : String)
  deriving Repr, DecidableEq

/-- Modelled from the spec: the body of
`NewProcessInjector::CreateProcessInternalW_Hook` is not under the
excerpt (only its declaration in `new_process_injector.h` is); this
follows §4.1 steps 2–6. The real implementation's outcome and the
injection primitive's outcome are environment inputs; the returned list
records policy evaluation, injection-primitive invocations, and logging. -/
def CreateProcessInternalW_Hook (policy : GatePolicy)
    (realResult : CreateProcessResult) (imagePath : String)
    (injectionSucceeds : Bool) : CreateProcessResult × List GateEvent :=
  if realResult.success then
    let skip := policy.ShouldSkipNewProcess imagePath
    let exempt := policy.ShouldAttachExemptThread imagePath
    let injectionEvents :=
      if skip then []
      else if injectionSucceeds then
        [GateEvent.injectionInvoked imagePath exempt]
      else
        [GateEvent.injectionInvoked imagePath exempt,
         GateEvent.logged "injection failed"]
    (realResult, GateEvent.policyEvaluated imagePath skip exempt
      :: injectionEvents)
  else
    (realResult, [])

/-- Modelled from the spec: each invocation of the hook increments
`m_hookProcCallCounter` at entry, before any policy work, and decrements
it on every exit path. An execution is observed as an interleaved trace of
these atomic increments and decrements across all in-flight invocations. -/
inductive HookEvent where
  | enter
  | leave
  deriving Repr, DecidableEq

def entersCount (tr : List HookEvent) : Nat := tr.count HookEvent.enter

def exitsCount (tr : List HookEvent) : Nat := tr.count HookEvent.leave

/-- The value of `m_hookProcCallCounter` after the trace `tr`, starting
from its initializer `0`. -/
def counterAfter (tr : List HookEvent) : Int :=
  tr.foldl (fun c e => match e with | .enter => c + 1 | .leave => c - 1) 0

/-- A trace is well formed when every decrement is performed by an
invocation that had already incremented: in every prefix, the number of
exits is at most the number of entries. This is exactly what the
increment-at-entry / decrement-at-exit discipline guarantees. -/
def WellFormedTrace (tr : List HookEvent) : Prop :=
  ∀ n : Nat, exitsCount (tr.take n) ≤ entersCount (tr.take n)

end NewProcessInjector

/-! ## Supporting lemmas -/

theorem decDigitsAux_length_le (fuel : Nat) :
    ∀ k n, n < 10 ^ k → k ≤ fuel → (decDigitsAux fuel n).length ≤ k := by
  induction fuel with
  | zero => intro k n _ _; simp [decDigitsAux]
  | succ fuel ih =>
    intro k n hn hk
    match n with
    | 0 => simp [decDigitsAux]
    | m + 1 =>
      have hk0 : k ≠ 0 := by
        intro h
        subst h
        simp at hn
      obtain ⟨k', rfl⟩ : ∃ k', k = k' + 1 := ⟨k - 1, by omega⟩
      have hdiv : (m + 1) / 10 < 10 ^ k' := by
        have h10 : (m + 1) < 10 ^ k' * 10 := by
          have : 10 ^ (k' + 1) = 10 ^ k' * 10 := pow_succ 10 k'
          omega
        exact Nat.div_lt_of_lt_mul (by omega)
      have := ih k' ((m + 1) / 10) hdiv (by omega)
      simp only [decDigitsAux, List.length_append, List.length_cons,
        List.length_nil]
      omega

theorem formatU_length_le (n : Nat) (h : n < 2 ^ 32) :
    (formatU n).length ≤ 10 := by
  unfold formatU
  by_cases h0 : n = 0
  · simp only [h0, if_true, if_pos]
    decide
  · have hn : n < 10 ^ 10 := by
      have : (2 : Nat) ^ 32 ≤ 10 ^ 10 := by norm_num
      omega
    simp only [h0, if_false]
    simpa using decDigitsAux_length_le 32 10 n hn (by omega)

example : SessionPrivateNamespace.MakeName 0 = "WindhawkSession0" := by rfl

example : SessionPrivateNamespace.MakeName 4294967295 =
    "WindhawkSession4294967295" := by rfl

namespace UpdateChecker

theorem stepFn_aborted_mono (s : UCState) (e : UCStep) (h : s.aborted = true) :
    (stepFn s e).aborted = true := by
  cases e with
  | setAbortFlag => rfl
  | abortPrimary => simpa [stepFn]
  | abortFallbackCritical => simpa [stepFn]
  | completionHandler primary sendOutcome =>
    simp only [stepFn, OnRequestDone, h]
    cases hr : ShouldRetryWithAGetRequest primary <;> simp [h]

theorem stepFn_no_fallback_after_abort (s : UCState) (e : UCStep)
    (ha : s.aborted = true) (hf : s.fallback = Option.none) :
    (stepFn s e).fallback = Option.none := by
  cases e with
  | setAbortFlag => simpa [stepFn]
  | abortPrimary => simpa [stepFn]
  | abortFallbackCritical => simp [stepFn, hf]
  | completionHandler primary sendOutcome =>
    simp only [stepFn, OnRequestDone, ha]
    cases hr : ShouldRetryWithAGetRequest primary <;> simp [hf]

theorem runTrace_no_fallback_after_abort (events : List UCStep) :
    ∀ s : UCState, s.aborted = true → s.fallback = Option.none →
    (runTrace s events).fallback = Option.none := by
  induction events with
  | nil => intro s _ hf; simpa [runTrace]
  | cons e es ih =>
    intro s ha hf
    have ha' := stepFn_aborted_mono s e ha
    have hf' := stepFn_no_fallback_after_abort s e ha hf
    simpa [runTrace] using ih (stepFn s e) ha' hf'

end UpdateChecker

namespace NewProcessInjector

theorem counterAfter_foldAux (tr : List HookEvent) :
    ∀ c : Int,
      tr.foldl (fun c e => match e with | .enter => c + 1 | .leave => c - 1) c
        = c + entersCount tr - exitsCount tr := by
  induction tr with
  | nil => intro c; simp [entersCount, exitsCount]
  | cons e es ih =>
    intro c
    cases e with
    | enter =>
      simp only [List.foldl_cons, ih, entersCount, exitsCount,
        List.count_cons]
      simp
      omega
    | leave =>
      simp only [List.foldl_cons, ih, entersCount, exitsCount,
        List.count_cons]
      simp
      omega

theorem counterAfter_eq (tr : List HookEvent) :
    counterAfter tr = (entersCount tr : Int) - exitsCount tr := by
  simpa using counterAfter_foldAux tr 0

end NewProcessInjector

/-! ## Claim theorems -/

/-- C1 (counterexample): `MakeName` does not format the process id into a
fixed-width decimal field — the output length varies with the id, as
witnessed by the ids `1` and `10`. -/
theorem makeName_not_fixed_width :
    (SessionPrivateNamespace.MakeName 1).length ≠
      (SessionPrivateNamespace.MakeName 10).length := by
  decide

/-- C1 (amended): for every session-manager process id below `2 ^ 32`,
`MakeName` — a pure function of the id — produces a name of length at most
`kPrivateNamespaceMaxLen`. -/
theorem makeName_length_le_max (pid : Nat) (h : pid < 2 ^ 32) :
    (SessionPrivateNamespace.MakeName pid).length ≤ kPrivateNamespaceMaxLen := by
  unfold SessionPrivateNamespace.MakeName kPrivateNamespaceMaxLen
  rw [String.length_append]
  have h1 := formatU_length_le pid h
  have h2 : ("WindhawkSession" : String).length = 15 := by decide
  omega

/-- C1 (witness): the largest 32-bit process id instantiates the length
bound. -/
theorem makeName_length_le_max_witness :
    4294967295 < 2 ^ 32 ∧
      (SessionPrivateNamespace.MakeName 4294967295).length ≤
        kPrivateNamespaceMaxLen :=
  ⟨by decide, makeName_length_le_max 4294967295 (by decide)⟩

/-- C2: in the synchronous constructor path, a fallback GET request is
issued if and only if the primary transport result is
`HRESULT_FROM_WIN32(ERROR_WINHTTP_INVALID_HEADER)` and the HTTP status is
exactly 405; a primary request whose transport result satisfies
`SUCCEEDED` never triggers a fallback; and the fallback request carries no
body and uses the GET verb. -/
theorem fallback_iff_invalid_header_405 (ver : String) (machine flags : Nat)
    (primary : HttpExchange) :
    ((UpdateChecker.syncFallbackRequest ver machine flags primary).isSome
        = true ↔
      primary.requestResult =
          HRESULT_FROM_WIN32 ERROR_WINHTTP_INVALID_HEADER ∧
        primary.lastStatusCode = 405) ∧
    (SUCCEEDED primary.requestResult = true →
      UpdateChecker.syncFallbackRequest ver machine flags primary =
        Option.none) ∧
    (∀ opts,
      UpdateChecker.syncFallbackRequest ver machine flags primary =
          some opts →
        opts.sVerb = "GET" ∧ opts.lpOptional = Option.none) := by
  unfold UpdateChecker.syncFallbackRequest
    UpdateChecker.ShouldRetryWithAGetRequest
  refine ⟨?_, ?_, ?_⟩
  · by_cases h1 : primary.requestResult =
        HRESULT_FROM_WIN32 ERROR_WINHTTP_INVALID_HEADER <;>
      by_cases h2 : primary.lastStatusCode = 405 <;>
      simp [h1, h2]
  · intro hs
    have hlt : primary.requestResult < 2 ^ 31 := by
      simpa [SUCCEEDED] using hs
    have hne : primary.requestResult ≠
        HRESULT_FROM_WIN32 ERROR_WINHTTP_INVALID_HEADER := by
      unfold HRESULT_FROM_WIN32 ERROR_WINHTTP_INVALID_HEADER
      norm_num
      omega
    simp [hne]
  · intro opts h
    cases hcond : ((primary.requestResult ==
        HRESULT_FROM_WIN32 ERROR_WINHTTP_INVALID_HEADER) &&
        (primary.lastStatusCode == 405)) with
    | false =>
      rw [hcond] at h
      simp at h
    | true =>
      rw [hcond] at h
      simp only [if_true, Option.some.injEq] at h
      subst h
      refine ⟨?_, ?_⟩ <;>
        simp [UpdateChecker.GetUpdateCheckerOptions]

/-- C2 (witness): the invalid-header/405 outcome triggers the fallback and
a succeeded outcome does not. -/
theorem fallback_iff_invalid_header_405_witness :
    (UpdateChecker.syncFallbackRequest "1.5.1" 34404 0
      (⟨2147954550, 405, ""⟩ : HttpExchange)).isSome = true ∧
    UpdateChecker.syncFallbackRequest "1.5.1" 34404 0
      (⟨0, 200, ""⟩ : HttpExchange) =
      Option.none := by
  constructor
  · exact (fallback_iff_invalid_header_405 "1.5.1" 34404 0
      (⟨2147954550, 405, ""⟩ : HttpExchange)).1.mpr ⟨by decide, rfl⟩
  · exact (fallback_iff_invalid_header_405 "1.5.1" 34404 0
      (⟨0, 200, ""⟩ : HttpExchange)).2.1 (by decide)

/-- C3: the primary request is a POST carrying the usage payload with a
JSON content-type header exactly when the payload is nonempty, a GET with
no body and no header when it is empty, and the user agent is
`Windhawk/<version> (<machine>[; portable])` with the portable suffix
present exactly when the portable flag is set. -/
theorem primaryRequest_shape (ver : String) (machine flags : Nat)
    (postedData : String) :
    (postedData.length ≠ 0 →
      (UpdateChecker.primaryRequest ver machine flags
          postedData).options.sVerb = "POST" ∧
      (UpdateChecker.primaryRequest ver machine flags
          postedData).options.lpOptional = some postedData ∧
      (UpdateChecker.primaryRequest ver machine flags postedData).headers =
        ["Content-Type: application/json"]) ∧
    (postedData.length = 0 →
      (UpdateChecker.primaryRequest ver machine flags
          postedData).options.sVerb = "GET" ∧
      (UpdateChecker.primaryRequest ver machine flags
          postedData).options.lpOptional = Option.none ∧
      (UpdateChecker.primaryRequest ver machine flags postedData).headers =
        []) ∧
    (Nat.land flags UpdateChecker.kFlagPortable ≠ 0 →
      (UpdateChecker.primaryRequest ver machine flags
          postedData).options.sUserAgent =
        "Windhawk/" ++ ver ++ " (" ++ toString machine ++ "; portable"
          ++ ")") ∧
    (Nat.land flags UpdateChecker.kFlagPortable = 0 →
      (UpdateChecker.primaryRequest ver machine flags
          postedData).options.sUserAgent =
        "Windhawk/" ++ ver ++ " (" ++ toString machine ++ ")") := by
  unfold UpdateChecker.primaryRequest UpdateChecker.GetUpdateCheckerOptions
  refine ⟨?_, ?_, ?_, ?_⟩
  · intro hne
    have hlen : 0 < postedData.length := Nat.pos_of_ne_zero hne
    simp [hlen, hne]
  · intro he
    simp [he]
  · intro hp
    simp only [hp, ne_eq, not_false_iff, if_true]
    split <;> rfl
  · intro hp
    simp only [hp, ne_eq, not_true, if_false]
    split <;> rfl

/-- C3 (witness): a nonempty payload with the portable flag set yields a
POST with the JSON header and the portable user agent. -/
theorem primaryRequest_shape_witness :
    (UpdateChecker.primaryRequest "1.5.1" 34404 1
        "usage-data").options.sVerb = "POST" ∧
    (UpdateChecker.primaryRequest "1.5.1" 34404 1 "usage-data").headers =
      ["Content-Type: application/json"] ∧
    (UpdateChecker.primaryRequest "1.5.1" 34404 1
        "usage-data").options.sUserAgent =
      "Windhawk/" ++ "1.5.1" ++ " (" ++ toString 34404 ++ "; portable"
        ++ ")" := by
  have h := primaryRequest_shape "1.5.1" 34404 1 "usage-data"
  exact ⟨(h.1 (by decide)).1, (h.1 (by decide)).2.2,
    h.2.2.1 (by decide)⟩

/-- C4: `HandleResponse` builds the result from the fallback exchange when
one exists and otherwise from the primary; it copies that exchange's
transport error code and HTTP status into the result; when the transport
code is not a success the parse/merge collaborator is never consulted (the
result does not depend on it); and a merge failure (a thrown exception) is
converted to `E_FAIL` instead of propagating. -/
theorem handleResponse_selects_and_catches (primary : HttpExchange)
    (fallback : Option HttpExchange)
    (merge : String → Except String Nat) :
    (∀ f, fallback = some f →
      UpdateChecker.HandleResponse primary fallback merge =
        UpdateChecker.HandleResponse f Option.none merge) ∧
    ((UpdateChecker.HandleResponse primary fallback merge).httpStatusCode =
      (fallback.getD primary).lastStatusCode) ∧
    (SUCCEEDED (fallback.getD primary).requestResult = false →
      UpdateChecker.HandleResponse primary fallback merge =
        { hrError := (fallback.getD primary).requestResult,
          httpStatusCode := (fallback.getD primary).lastStatusCode,
          updateStatus := 0 } ∧
      ∀ merge2, UpdateChecker.HandleResponse primary fallback merge2 =
        UpdateChecker.HandleResponse primary fallback merge) ∧
    (SUCCEEDED (fallback.getD primary).requestResult = true →
      (∀ e, merge (fallback.getD primary).response = .error e →
        UpdateChecker.HandleResponse primary fallback merge =
          { hrError := E_FAIL,
            httpStatusCode := (fallback.getD primary).lastStatusCode,
            updateStatus := 0 }) ∧
      (∀ st, merge (fallback.getD primary).response = .ok st →
        UpdateChecker.HandleResponse primary fallback merge =
          { hrError := (fallback.getD primary).requestResult,
            httpStatusCode := (fallback.getD primary).lastStatusCode,
            updateStatus := st })) := by
  refine ⟨?_, ?_, ?_, ?_⟩
  · intro f hf
    subst hf
    rfl
  · unfold UpdateChecker.HandleResponse
    cases hs : SUCCEEDED (fallback.getD primary).requestResult with
    | false => simp [hs]
    | true =>
      simp only [hs, if_true]
      cases merge (fallback.getD primary).response <;> simp
  · intro hs
    unfold UpdateChecker.HandleResponse
    refine ⟨by simp [hs], ?_⟩
    intro merge2
    simp [hs]
  · intro hs
    unfold UpdateChecker.HandleResponse
    constructor
    · intro e he
      simp [hs, he]
    · intro st hst
      simp [hs, hst]

/-- C4 (witness): a fallback exchange with a failed transport is selected
and reported verbatim, and a merge failure on a succeeded primary becomes
`E_FAIL`. -/
theorem handleResponse_selects_and_catches_witness :
    UpdateChecker.HandleResponse
        (⟨0, 200, "x"⟩ : HttpExchange)
        (some (⟨2147954550, 405, ""⟩ : HttpExchange))
        (fun _ => Except.error "boom") =
      { hrError := 2147954550, httpStatusCode := 405, updateStatus := 0 } ∧
    UpdateChecker.HandleResponse
        (⟨0, 200, "x"⟩ : HttpExchange)
        Option.none (fun _ => Except.error "boom") =
      { hrError := E_FAIL, httpStatusCode := 200, updateStatus := 0 } := by
  constructor
  · exact ((handleResponse_selects_and_catches
      (⟨0, 200, "x"⟩ : HttpExchange)
      (some (⟨2147954550, 405, ""⟩ : HttpExchange))
      (fun _ => Except.error "boom")).2.2.1 (by decide)).1
  · exact ((handleResponse_selects_and_catches
      (⟨0, 200, "x"⟩ : HttpExchange)
      Option.none (fun _ => Except.error "boom")).2.2.2
        (by decide)).1 "boom" rfl

/-- C5: `Abort` is idempotent — any number of calls has the effect of one:
the abort flag is set, the primary exchange is aborted, the fallback is
aborted when it exists, and nothing else changes — and once `Abort` has
set the abort flag, no interleaving of further atomic steps (including the
mutex-guarded completion handler, which re-checks the flag) ever creates a
fallback exchange object. -/
theorem abort_idempotent_no_late_fallback (s : UpdateChecker.UCState)
    (events : List UpdateChecker.UCStep) :
    (∀ n : Nat, UpdateChecker.Abort^[n + 1] s = UpdateChecker.Abort s) ∧
    (UpdateChecker.Abort s).aborted = true ∧
    (UpdateChecker.Abort s).primaryAborted = true ∧
    (UpdateChecker.Abort s).fallback = s.fallback.map (fun _ => true) ∧
    (UpdateChecker.Abort s).logs = s.logs ∧
    (s.fallback = Option.none →
      (UpdateChecker.runTrace (UpdateChecker.Abort s) events).fallback =
        Option.none) := by
  have habort : ∀ t : UpdateChecker.UCState,
      UpdateChecker.Abort (UpdateChecker.Abort t) =
        UpdateChecker.Abort t := by
    intro t
    unfold UpdateChecker.Abort
    cases t.fallback <;> rfl
  refine ⟨?_, rfl, rfl, rfl, rfl, ?_⟩
  · intro n
    induction n with
    | zero => rfl
    | succ n ih =>
      rw [Function.iterate_succ_apply', ih, habort]
  · intro hf
    apply UpdateChecker.runTrace_no_fallback_after_abort
    · rfl
    · simp [UpdateChecker.Abort, hf]

/-- C5 (witness): from a fresh state, a double `Abort` equals a single one
and a subsequent completion handler (even one whose retry condition holds)
creates no fallback. -/
theorem abort_idempotent_no_late_fallback_witness :
    UpdateChecker.Abort^[2] ({} : UpdateChecker.UCState) =
      UpdateChecker.Abort ({} : UpdateChecker.UCState) ∧
    (UpdateChecker.runTrace
        (UpdateChecker.Abort ({} : UpdateChecker.UCState))
        [UpdateChecker.UCStep.completionHandler
          (⟨2147954550, 405, ""⟩ : HttpExchange)
          UpdateChecker.SendOutcome.ok]).fallback = Option.none := by
  have h := abort_idempotent_no_late_fallback ({} : UpdateChecker.UCState)
    [UpdateChecker.UCStep.completionHandler
      (⟨2147954550, 405, ""⟩ : HttpExchange)
      UpdateChecker.SendOutcome.ok]
  exact ⟨h.1 1, h.2.2.2.2.2 rfl⟩

/-- C6: `Create` passes the same string as boundary-descriptor name and as
private-namespace name; the boundary descriptor carries exactly the world
SID and the medium mandatory integrity label; the namespace is created
under the full-access security descriptor; and `Open` rebuilds the
identical boundary descriptor from the identical name. -/
theorem create_same_name_world_sid_medium_label (pid : Nat) (st : OsState) :
    BuildBoundaryDescriptor OsFaults.none
        (SessionPrivateNamespace.MakeName pid) =
      Except.ok ⟨SessionPrivateNamespace.MakeName pid, [SidKind.world],
        [SidKind.mediumMandatoryLevel]⟩ ∧
    (∀ st' ns,
      SessionPrivateNamespace.Create OsFaults.none st pid =
          (st', Except.ok ns) →
        ns.name = SessionPrivateNamespace.MakeName pid ∧
        ns.boundary.name = SessionPrivateNamespace.MakeName pid ∧
        ns.boundary.sids = [SidKind.world] ∧
        ns.boundary.integrityLabels = [SidKind.mediumMandatoryLevel] ∧
        ns.security.securityDescriptor = SecurityDescriptorKind.fullAccess) ∧
    (∀ st' ns,
      SessionPrivateNamespace.Open OsFaults.none st pid =
          (st', Except.ok ns) →
        ns.boundary = ⟨SessionPrivateNamespace.MakeName pid,
          [SidKind.world], [SidKind.mediumMandatoryLevel]⟩) := by
  refine ⟨rfl, ?_, ?_⟩
  · intro st' ns h
    unfold SessionPrivateNamespace.Create at h
    simp only [BuildBoundaryDescriptor, GetFullAccessSecurityDescriptor,
      CreatePrivateNamespaceOs, OsFaults.none] at h
    cases hany : st.namespaces.any
        (fun ns => ns.name == SessionPrivateNamespace.MakeName pid) with
    | true => simp [hany] at h
    | false =>
      simp [hany] at h
      obtain ⟨-, hns⟩ := h
      subst hns
      exact ⟨rfl, rfl, rfl, rfl, rfl⟩
  · intro st' ns h
    unfold SessionPrivateNamespace.Open at h
    simp only [BuildBoundaryDescriptor, OpenPrivateNamespaceOs,
      OsFaults.none] at h
    cases hfind : st.namespaces.find?
        (fun x => x.name == SessionPrivateNamespace.MakeName pid &&
          decide (x.boundary = ⟨SessionPrivateNamespace.MakeName pid,
            [SidKind.world], [SidKind.mediumMandatoryLevel]⟩)) with
    | none => simp [hfind] at h
    | some found =>
      have hp := List.find?_some hfind
      simp only [Bool.and_eq_true, decide_eq_true_eq] at hp
      simp [hfind] at h
      obtain ⟨-, hns⟩ := h
      subst hns
      exact hp.2

/-- C6 (witness): creating for process id 1234 from an empty OS state
yields a namespace whose stored name and boundary name are both
`MakeName 1234`, with the world SID, the medium label and the full-access
descriptor. -/
theorem create_same_name_world_sid_medium_label_witness :
    (⟨"WindhawkSession1234", ⟨"WindhawkSession1234", [SidKind.world],
        [SidKind.mediumMandatoryLevel]⟩,
      ⟨SecurityDescriptorKind.fullAccess, false⟩⟩ :
        PrivateNamespace).name = SessionPrivateNamespace.MakeName 1234 ∧
    (⟨"WindhawkSession1234", ⟨"WindhawkSession1234", [SidKind.world],
        [SidKind.mediumMandatoryLevel]⟩,
      ⟨SecurityDescriptorKind.fullAccess, false⟩⟩ :
        PrivateNamespace).boundary.name =
      SessionPrivateNamespace.MakeName 1234 ∧
    (⟨"WindhawkSession1234", ⟨"WindhawkSession1234", [SidKind.world],
        [SidKind.mediumMandatoryLevel]⟩,
      ⟨SecurityDescriptorKind.fullAccess, false⟩⟩ :
        PrivateNamespace).boundary.sids = [SidKind.world] ∧
    (⟨"WindhawkSession1234", ⟨"WindhawkSession1234", [SidKind.world],
        [SidKind.mediumMandatoryLevel]⟩,
      ⟨SecurityDescriptorKind.fullAccess, false⟩⟩ :
        PrivateNamespace).boundary.integrityLabels =
      [SidKind.mediumMandatoryLevel] ∧
    (⟨"WindhawkSession1234", ⟨"WindhawkSession1234", [SidKind.world],
        [SidKind.mediumMandatoryLevel]⟩,
      ⟨SecurityDescriptorKind.fullAccess, false⟩⟩ :
        PrivateNamespace).security.securityDescriptor =
      SecurityDescriptorKind.fullAccess :=
  (create_same_name_world_sid_medium_label 1234 ⟨[]⟩).2.1
    ⟨[⟨"WindhawkSession1234", ⟨"WindhawkSession1234", [SidKind.world],
        [SidKind.mediumMandatoryLevel]⟩,
      ⟨SecurityDescriptorKind.fullAccess, false⟩⟩]⟩
    ⟨"WindhawkSession1234", ⟨"WindhawkSession1234", [SidKind.world],
        [SidKind.mediumMandatoryLevel]⟩,
      ⟨SecurityDescriptorKind.fullAccess, false⟩⟩
    (by rfl)

/-- C7: `Open` never modifies the OS namespace state (it opens, never
creates); when no namespace with the computed name exists `Open` throws;
`Create` followed by `Open` (fault-free) succeeds and yields the created
namespace; a failed `Create` leaves the OS state unchanged; and a
successful `Create` or `Open` implies that none of the OS primitives on
its path failed (every primitive failure is fatal). -/
theorem open_only_opens_create_then_open (f : OsFaults) (st : OsState)
    (pid : Nat) :
    (SessionPrivateNamespace.Open f st pid).1 = st ∧
    ((∀ ns ∈ st.namespaces,
        ns.name ≠ SessionPrivateNamespace.MakeName pid) →
      (∃ e, (SessionPrivateNamespace.Open f st pid).2 = Except.error e) ∧
      (∃ st' ns,
        SessionPrivateNamespace.Create OsFaults.none st pid =
            (st', Except.ok ns) ∧
          (SessionPrivateNamespace.Open OsFaults.none st' pid).2 =
            Except.ok ns)) ∧
    (∀ st' e,
      SessionPrivateNamespace.Create f st pid = (st', Except.error e) →
        st' = st) ∧
    (∀ st' ns,
      SessionPrivateNamespace.Create f st pid = (st', Except.ok ns) →
        f.createBoundaryDescriptorFails = false ∧
        f.allocateWorldSidFails = false ∧
        f.addSidToBoundaryFails = false ∧
        f.allocateMediumSidFails = false ∧
        f.addIntegrityLabelFails = false ∧
        f.getFullAccessSecurityDescriptorFails = false ∧
        f.createPrivateNamespaceFails = false) ∧
    (∀ st' ns,
      SessionPrivateNamespace.Open f st pid = (st', Except.ok ns) →
        f.createBoundaryDescriptorFails = false ∧
        f.allocateWorldSidFails = false ∧
        f.addSidToBoundaryFails = false ∧
        f.allocateMediumSidFails = false ∧
        f.addIntegrityLabelFails = false ∧
        f.openPrivateNamespaceFails = false) := by
  have hOpenFst : (SessionPrivateNamespace.Open f st pid).1 = st := by
    unfold SessionPrivateNamespace.Open
    cases hb : BuildBoundaryDescriptor f
        (SessionPrivateNamespace.MakeName pid) with
    | error e => rfl
    | ok bd =>
      simp only [OpenPrivateNamespaceOs]
      cases hop : f.openPrivateNamespaceFails with
      | true => simp [hop]
      | false =>
        cases hfind : st.namespaces.find?
            (fun ns => ns.name == SessionPrivateNamespace.MakeName pid &&
              decide (ns.boundary = bd)) with
        | none => simp [hop, hfind]
        | some found => simp [hop, hfind]
  refine ⟨hOpenFst, ?_, ?_, ?_, ?_⟩
  · intro hno
    constructor
    · unfold SessionPrivateNamespace.Open
      cases hb : BuildBoundaryDescriptor f
          (SessionPrivateNamespace.MakeName pid) with
      | error e => exact ⟨e, rfl⟩
      | ok bd =>
        simp only [OpenPrivateNamespaceOs]
        cases hop : f.openPrivateNamespaceFails with
        | true => simp [hop]
        | false =>
          have hfind : st.namespaces.find?
              (fun ns => ns.name == SessionPrivateNamespace.MakeName pid &&
                decide (ns.boundary = bd)) = Option.none := by
            apply List.find?_eq_none.mpr
            intro x hx
            simp only [Bool.and_eq_true, beq_iff_eq, decide_eq_true_eq,
              not_and]
            intro hxn
            exact absurd hxn (hno x hx)
          simp [hop, hfind]
    · have hany : st.namespaces.any
          (fun ns => ns.name == SessionPrivateNamespace.MakeName pid)
            = false := by
        simp only [List.any_eq_false, beq_iff_eq]
        exact hno
      refine ⟨⟨(⟨SessionPrivateNamespace.MakeName pid,
          ⟨SessionPrivateNamespace.MakeName pid, [SidKind.world],
            [SidKind.mediumMandatoryLevel]⟩,
          ⟨SecurityDescriptorKind.fullAccess, false⟩⟩ : PrivateNamespace)
            :: st.namespaces⟩,
        ⟨SessionPrivateNamespace.MakeName pid,
          ⟨SessionPrivateNamespace.MakeName pid, [SidKind.world],
            [SidKind.mediumMandatoryLevel]⟩,
          ⟨SecurityDescriptorKind.fullAccess, false⟩⟩, ?_, ?_⟩
      · unfold SessionPrivateNamespace.Create
        simp only [BuildBoundaryDescriptor, GetFullAccessSecurityDescriptor,
          CreatePrivateNamespaceOs, OsFaults.none]
        simp [hany]
      · unfold SessionPrivateNamespace.Open
        simp only [BuildBoundaryDescriptor, OpenPrivateNamespaceOs,
          OsFaults.none]
        simp [List.find?]
  · intro st' e h
    unfold SessionPrivateNamespace.Create at h
    cases hb : BuildBoundaryDescriptor f
        (SessionPrivateNamespace.MakeName pid) with
    | error e2 =>
      rw [hb] at h
      simp only [Prod.mk.injEq] at h
      exact h.1.symm
    | ok bd =>
      rw [hb] at h
      cases hg : GetFullAccessSecurityDescriptor f with
      | error e3 =>
        rw [hg] at h
        simp only [Prod.mk.injEq] at h
        exact h.1.symm
      | ok sd =>
        rw [hg] at h
        unfold CreatePrivateNamespaceOs at h
        cases h7 : f.createPrivateNamespaceFails with
        | true =>
          simp only [h7, if_true] at h
          simp only [Prod.mk.injEq] at h
          exact h.1.symm
        | false =>
          simp only [h7, Bool.false_eq_true, if_false] at h
          cases hany2 : st.namespaces.any
              (fun ns => ns.name == SessionPrivateNamespace.MakeName pid) with
          | true =>
            simp only [hany2, if_true] at h
            simp only [Prod.mk.injEq] at h
            exact h.1.symm
          | false =>
            simp only [hany2, Bool.false_eq_true, if_false] at h
            simp only [Prod.mk.injEq] at h
            exact absurd h.2 (by simp)
  · intro st' ns h
    unfold SessionPrivateNamespace.Create BuildBoundaryDescriptor
      GetFullAccessSecurityDescriptor CreatePrivateNamespaceOs at h
    cases h1 : f.createBoundaryDescriptorFails with
    | true => simp [h1] at h
    | false =>
    cases h2 : f.allocateWorldSidFails with
    | true => simp [h1, h2] at h
    | false =>
    cases h3 : f.addSidToBoundaryFails with
    | true => simp [h1, h2, h3] at h
    | false =>
    cases h4 : f.allocateMediumSidFails with
    | true => simp [h1, h2, h3, h4] at h
    | false =>
    cases h5 : f.addIntegrityLabelFails with
    | true => simp [h1, h2, h3, h4, h5] at h
    | false =>
    cases h6 : f.getFullAccessSecurityDescriptorFails with
    | true => simp [h1, h2, h3, h4, h5, h6] at h
    | false =>
    cases h7 : f.createPrivateNamespaceFails with
    | true => simp [h1, h2, h3, h4, h5, h6, h7] at h
    | false => exact ⟨rfl, rfl, rfl, rfl, rfl, rfl, rfl⟩
  · intro st' ns h
    unfold SessionPrivateNamespace.Open BuildBoundaryDescriptor
      OpenPrivateNamespaceOs at h
    cases h1 : f.createBoundaryDescriptorFails with
    | true => simp [h1] at h
    | false =>
    cases h2 : f.allocateWorldSidFails with
    | true => simp [h1, h2] at h
    | false =>
    cases h3 : f.addSidToBoundaryFails with
    | true => simp [h1, h2, h3] at h
    | false =>
    cases h4 : f.allocateMediumSidFails with
    | true => simp [h1, h2, h3, h4] at h
    | false =>
    cases h5 : f.addIntegrityLabelFails with
    | true => simp [h1, h2, h3, h4, h5] at h
    | false =>
    cases h6 : f.openPrivateNamespaceFails with
    | true => simp [h1, h2, h3, h4, h5, h6] at h
    | false => exact ⟨rfl, rfl, rfl, rfl, rfl, rfl⟩

/-- C7 (witness): from an empty OS state, `Open` before `Create` fails,
`Create` then `Open` succeeds with the same namespace, and a `Create` whose
boundary-descriptor call fails leaves the state unchanged. -/
theorem open_only_opens_create_then_open_witness :
    ((∃ e, (SessionPrivateNamespace.Open OsFaults.none
        (⟨[]⟩ : OsState) 7).2 = Except.error e) ∧
      (∃ st' ns,
        SessionPrivateNamespace.Create OsFaults.none (⟨[]⟩ : OsState) 7 =
            (st', Except.ok ns) ∧
          (SessionPrivateNamespace.Open OsFaults.none st' 7).2 =
            Except.ok ns)) ∧
    (SessionPrivateNamespace.Open OsFaults.none (⟨[]⟩ : OsState) 7).1 =
      (⟨[]⟩ : OsState) := by
  have h := open_only_opens_create_then_open OsFaults.none
    (⟨[]⟩ : OsState) 7
  exact ⟨h.2.1 (by simp), h.1⟩

/-- C8: whenever the real (saved) process-creation implementation fails,
the hook returns that failure result unmodified, with no policy evaluation
and no injection-primitive invocation. -/
theorem hook_propagates_real_failure
    (policy : NewProcessInjector.GatePolicy)
    (realResult : NewProcessInjector.CreateProcessResult)
    (imagePath : String) (injectionSucceeds : Bool)
    (h : realResult.success = false) :
    NewProcessInjector.CreateProcessInternalW_Hook policy realResult
      imagePath injectionSucceeds = (realResult, []) := by
  unfold NewProcessInjector.CreateProcessInternalW_Hook
  simp [h]

/-- C8 (witness): a failed real creation (error code 5) is returned
verbatim and produces no events. -/
theorem hook_propagates_real_failure_witness :
    NewProcessInjector.CreateProcessInternalW_Hook
      ⟨fun _ => false, fun _ => false⟩ ⟨false, 5⟩ "target.exe" true =
      (⟨false, 5⟩, []) :=
  hook_propagates_real_failure ⟨fun _ => false, fun _ => false⟩
    ⟨false, 5⟩ "target.exe" true rfl

/-- C9: over any well-formed interleaving of hook entries and exits (each
exit performed by an invocation that had entered), at every observation
point the reentrancy counter equals entries minus exits and is
non-negative, and it returns to zero once all in-flight invocations have
completed. -/
theorem hook_counter_invariant (tr : List NewProcessInjector.HookEvent)
    (h : NewProcessInjector.WellFormedTrace tr) :
    (∀ n : Nat,
      NewProcessInjector.counterAfter (tr.take n) =
        (NewProcessInjector.entersCount (tr.take n) : Int) -
          NewProcessInjector.exitsCount (tr.take n) ∧
      0 ≤ NewProcessInjector.counterAfter (tr.take n)) ∧
    (NewProcessInjector.entersCount tr = NewProcessInjector.exitsCount tr →
      NewProcessInjector.counterAfter tr = 0) := by
  constructor
  · intro n
    have heq := NewProcessInjector.counterAfter_eq (tr.take n)
    have hle := h n
    exact ⟨heq, by omega⟩
  · intro hbal
    have heq := NewProcessInjector.counterAfter_eq tr
    omega

/-- C9 (witness): the interleaving enter–enter–exit–exit of two concurrent
invocations keeps the counter non-negative and drains it to zero. -/
theorem hook_counter_invariant_witness :
    NewProcessInjector.counterAfter
      [NewProcessInjector.HookEvent.enter,
       NewProcessInjector.HookEvent.enter,
       NewProcessInjector.HookEvent.leave,
       NewProcessInjector.HookEvent.leave] = 0 ∧
    0 ≤ NewProcessInjector.counterAfter
      ([NewProcessInjector.HookEvent.enter,
        NewProcessInjector.HookEvent.enter,
        NewProcessInjector.HookEvent.leave,
        NewProcessInjector.HookEvent.leave].take 2) := by
  have hwf : NewProcessInjector.WellFormedTrace
      [NewProcessInjector.HookEvent.enter,
       NewProcessInjector.HookEvent.enter,
       NewProcessInjector.HookEvent.leave,
       NewProcessInjector.HookEvent.leave] := by
    intro n
    match n with
    | 0 => decide
    | 1 => decide
    | 2 => decide
    | 3 => decide
    | m + 4 =>
      rw [List.take_of_length_le (by simp)]
      decide
  have h := hook_counter_invariant
    [NewProcessInjector.HookEvent.enter,
     NewProcessInjector.HookEvent.enter,
     NewProcessInjector.HookEvent.leave,
     NewProcessInjector.HookEvent.leave] hwf
  exact ⟨h.2 (by decide), (h.1 2).2⟩

/-- C10: in asynchronous mode the completion callback fires exactly once
on every path through the primary-completion handler (counting a callback
registered with the fallback's send as firing on its completion); when
building or sending the fallback GET throws, the fallback reference is
reset to null, the error is logged, and the callback is invoked directly;
and `HandleResponse` with a null fallback reference reports the primary
exchange's outcome. -/
theorem onRequestDone_callback_exactly_once (primary : HttpExchange)
    (s : UpdateChecker.UCState) (outcome : UpdateChecker.SendOutcome) :
    ((UpdateChecker.OnRequestDone primary s outcome).immediateCallbacks +
      (UpdateChecker.OnRequestDone primary s outcome).deferredCallbacks
        = 1) ∧
    (s.aborted = false →
      UpdateChecker.ShouldRetryWithAGetRequest primary = true →
      outcome = UpdateChecker.SendOutcome.throws →
      (UpdateChecker.OnRequestDone primary s outcome).state.fallback =
        Option.none ∧
      (UpdateChecker.OnRequestDone primary s outcome).immediateCallbacks
        = 1 ∧
      (UpdateChecker.OnRequestDone primary s outcome).state.logs =
        s.logs ++ ["Get request failed"]) ∧
    (∀ (pOut : HttpExchange) (merge : String → Except String Nat),
      (UpdateChecker.HandleResponse pOut Option.none merge).httpStatusCode
        = pOut.lastStatusCode ∧
      (SUCCEEDED pOut.requestResult = false →
        (UpdateChecker.HandleResponse pOut Option.none merge).hrError =
          pOut.requestResult)) := by
  refine ⟨?_, ?_, ?_⟩
  · unfold UpdateChecker.OnRequestDone
    cases hr : UpdateChecker.ShouldRetryWithAGetRequest primary with
    | false => simp
    | true =>
      cases ha : s.aborted with
      | true => simp [ha]
      | false => cases outcome <;> simp [ha]
  · intro ha hr ho
    subst ho
    unfold UpdateChecker.OnRequestDone
    simp [ha, hr]
  · intro pOut merge
    unfold UpdateChecker.HandleResponse
    cases hs : SUCCEEDED pOut.requestResult with
    | false => simp [hs]
    | true =>
      refine ⟨?_, by simp [hs]⟩
      simp only [hs, Option.getD, if_true]
      cases merge pOut.response <;> simp

/-- C10 (witness): with a 405/invalid-header primary outcome and a
throwing fallback send, the handler leaves the fallback null, logs, and
invokes the callback once. -/
theorem onRequestDone_callback_exactly_once_witness :
    (UpdateChecker.OnRequestDone (⟨2147954550, 405, ""⟩ : HttpExchange)
        ({} : UpdateChecker.UCState)
        UpdateChecker.SendOutcome.throws).state.fallback = Option.none ∧
    (UpdateChecker.OnRequestDone (⟨2147954550, 405, ""⟩ : HttpExchange)
        ({} : UpdateChecker.UCState)
        UpdateChecker.SendOutcome.throws).immediateCallbacks = 1 ∧
    (UpdateChecker.OnRequestDone (⟨2147954550, 405, ""⟩ : HttpExchange)
        ({} : UpdateChecker.UCState)
        UpdateChecker.SendOutcome.throws).immediateCallbacks +
      (UpdateChecker.OnRequestDone (⟨2147954550, 405, ""⟩ : HttpExchange)
        ({} : UpdateChecker.UCState)
        UpdateChecker.SendOutcome.throws).deferredCallbacks = 1 := by
  have h := onRequestDone_callback_exactly_once
    (⟨2147954550, 405, ""⟩ : HttpExchange) ({} : UpdateChecker.UCState)
    UpdateChecker.SendOutcome.throws
  have h2 := h.2.1 rfl (by decide) rfl
  exact ⟨h2.1, h2.2.1, h.1⟩

end Windhawk
